import Mathlib

/-!
# Verification of the termius-cli core API client

A shallow embedding of `termius/core/api.py`: the credential signer
(`TermiusAuth`), the password digest (`hash_password`, SHA-256 over the
latin-1 bytes produced by `six.b`), and the `API` client with its
`login` / `get` / `post` / `put` / `delete` operations and response
classification.  HTTP transport is external: every operation takes the
HTTP response it received as an explicit argument.  Exceptions become an
explicit error type; Python mutation of `self.auth` becomes state
passing (each operation returns the client state after the call).
-/

/-! ## SHA-256 over `Nat` (32-bit words as `Nat` reduced mod 2^32) -/

/-- Truncate to a 32-bit word. -/
def w32 (x : Nat) : Nat := x % 4294967296

/-- Right rotation of a 32-bit word. -/
def rotr32 (x n : Nat) : Nat := w32 ((x >>> n) ||| (x <<< (32 - n)))

/-- Bitwise complement of a 32-bit word. -/
def not32 (x : Nat) : Nat := 4294967295 ^^^ x

def sigmaBig0 (x : Nat) : Nat := rotr32 x 2 ^^^ rotr32 x 13 ^^^ rotr32 x 22

def sigmaBig1 (x : Nat) : Nat := rotr32 x 6 ^^^ rotr32 x 11 ^^^ rotr32 x 25

def sigmaSmall0 (x : Nat) : Nat := rotr32 x 7 ^^^ rotr32 x 18 ^^^ (x >>> 3)

def sigmaSmall1 (x : Nat) : Nat := rotr32 x 17 ^^^ rotr32 x 19 ^^^ (x >>> 10)

def chFn (x y z : Nat) : Nat := (x &&& y) ^^^ (not32 x &&& z)

def majFn (x y z : Nat) : Nat := (x &&& y) ^^^ (x &&& z) ^^^ (y &&& z)

/-- The 64 SHA-256 round constants (FIPS 180-4, written in decimal). -/
def sha256K : List Nat :=
  [1116352408, 1899447441, 3049323471, 3921009573,
   961987163, 1508970993, 2453635748, 2870763221,
   3624381080, 310598401, 607225278, 1426881987,
   1925078388, 2162078206, 2614888103, 3248222580,
   3835390401, 4022224774, 264347078, 604807628,
   770255983, 1249150122, 1555081692, 1996064986,
   2554220882, 2821834349, 2952996808, 3210313671,
   3336571891, 3584528711, 113926993, 338241895,
   666307205, 773529912, 1294757372, 1396182291,
   1695183700, 1986661051, 2177026350, 2456956037,
   2730485921, 2820302411, 3259730800, 3345764771,
   3516065817, 3600352804, 4094571909, 275423344,
   430227734, 506948616, 659060556, 883997877,
   958139571, 1322822218, 1537002063, 1747873779,
   1955562222, 2024104815, 2227730452, 2361852424,
   2428436474, 2756734187, 3204031479, 3329325298]

/-- The eight SHA-256 working variables. -/
structure Hash8 where
  a : Nat
  b : Nat
  c : Nat
  d : Nat
  e : Nat
  f : Nat
  g : Nat
  h : Nat

/-- The SHA-256 initial hash value (FIPS 180-4, written in decimal). -/
def sha256H0 : Hash8 :=
  ⟨1779033703, 3144134277, 1013904242, 2773480762,
   1359893119, 2600822924, 528734635, 1541459225⟩

/-- Pad a byte message to a multiple of 64 bytes (0x80, zeros, 64-bit
big-endian bit length). -/
def sha256Pad (msg : List Nat) : List Nat :=
  let bitLen := msg.length * 8
  let zeros := (119 - msg.length % 64) % 64
  msg ++ [0x80] ++ List.replicate zeros 0 ++
    [(bitLen >>> 56) % 256, (bitLen >>> 48) % 256, (bitLen >>> 40) % 256,
     (bitLen >>> 32) % 256, (bitLen >>> 24) % 256, (bitLen >>> 16) % 256,
     (bitLen >>> 8) % 256, bitLen % 256]

/-- Group bytes into big-endian 32-bit words. -/
def bytesToWords : List Nat → List Nat
  | b0 :: b1 :: b2 :: b3 :: rest =>
      (b0 * 16777216 + b1 * 65536 + b2 * 256 + b3) :: bytesToWords rest
  | _ => []

/-- Extend the 16 block words by `n` more schedule words. -/
def sha256Extend : List Nat → Nat → List Nat
  | ws, 0 => ws
  | ws, n + 1 =>
      let i := ws.length
      let w := w32 (sigmaSmall1 (ws.getD (i - 2) 0) + ws.getD (i - 7) 0 +
        sigmaSmall0 (ws.getD (i - 15) 0) + ws.getD (i - 16) 0)
      sha256Extend (ws ++ [w]) n

/-- One SHA-256 compression round. -/
def sha256Round (st : Hash8) (kw : Nat × Nat) : Hash8 :=
  let t1 := w32 (st.h + sigmaBig1 st.e + chFn st.e st.f st.g + kw.1 + kw.2)
  let t2 := w32 (sigmaBig0 st.a + majFn st.a st.b st.c)
  ⟨w32 (t1 + t2), st.a, st.b, st.c, w32 (st.d + t1), st.e, st.f, st.g⟩

/-- Compress one 64-byte block into the running hash. -/
def sha256Block (st : Hash8) (block : List Nat) : Hash8 :=
  let ws := sha256Extend (bytesToWords block) 48
  let k := (sha256K.zip ws).foldl sha256Round st
  ⟨w32 (st.a + k.a), w32 (st.b + k.b), w32 (st.c + k.c), w32 (st.d + k.d),
   w32 (st.e + k.e), w32 (st.f + k.f), w32 (st.g + k.g), w32 (st.h + k.h)⟩

/-- Split a byte list into 64-byte chunks, with fuel for termination. -/
def chunks64Go : Nat → List Nat → List (List Nat)
  | 0, _ => []
  | _, [] => []
  | fuel + 1, l => l.take 64 :: chunks64Go fuel (l.drop 64)

def chunks64 (l : List Nat) : List (List Nat) := chunks64Go l.length l

/-- SHA-256 of a byte message. -/
def sha256Bytes (msg : List Nat) : Hash8 :=
  (chunks64 (sha256Pad msg)).foldl sha256Block sha256H0

/-- Lowercase hexadecimal digit. -/
def hexDigitChar (n : Nat) : Char :=
  if n < 10 then Char.ofNat (48 + n) else Char.ofNat (87 + n)

/-- Eight lowercase hex digits of a 32-bit word, most significant first. -/
def wordHexChars (x : Nat) : List Char :=
  [hexDigitChar ((x >>> 28) % 16), hexDigitChar ((x >>> 24) % 16),
   hexDigitChar ((x >>> 20) % 16), hexDigitChar ((x >>> 16) % 16),
   hexDigitChar ((x >>> 12) % 16), hexDigitChar ((x >>> 8) % 16),
   hexDigitChar ((x >>> 4) % 16), hexDigitChar (x % 16)]

/-- The hex digest of a hash state, as `hashlib`'s `hexdigest` renders it. -/
def hexdigest (st : Hash8) : String :=
  String.mk (wordHexChars st.a ++ wordHexChars st.b ++ wordHexChars st.c ++
    wordHexChars st.d ++ wordHexChars st.e ++ wordHexChars st.f ++
    wordHexChars st.g ++ wordHexChars st.h)

/-- `six.b`: encode a Python `str` as latin-1 bytes; raises
`UnicodeEncodeError` (here: `none`) when a character is above U+00FF. -/
def six_b (s : String) : Option (List Nat) :=
  if s.toList.all (fun c => decide (c.toNat < 256)) then
    some (s.toList.map Char.toNat)
  else none

/-- `hash_password` from `termius/core/api.py`: latin-1 encode via `six.b`,
then the SHA-256 hex digest; `none` models the `UnicodeEncodeError` raised
by `six.b` on characters above U+00FF. -/
def hash_password (password : String) : Option String :=
  (six_b password).map (fun bs => hexdigest (sha256Bytes bs))

/-! ## JSON values and HTTP responses

The HTTP layer (`requests`) is an external collaborator: each operation
takes, as an explicit argument, the `Response` the request it sent came
back with.  A response carries its status code, its raw body text, and
the result of JSON-decoding that body (`none` when the body is not valid
JSON, e.g. the empty body, in which case `.json()` raises). -/

inductive Json where
  | null : Json
  | bool : Bool → Json
  | num : Int → Json
  | str : String → Json
  | arr : List Json → Json
  | obj : List (String × Json) → Json

/-- Python `str()` of a decoded JSON value (only the `str` case is ever
reached by the claims; the rest mirror Python's rendering loosely). -/
def Json.pyStr : Json → String
  | .null => "None"
  | .bool b => if b then "True" else "False"
  | .num n => toString n
  | .str s => s
  | .arr _ => "[...]"
  | .obj _ => "\x7b...\x7d"

/-- First binding of a key in a JSON object's field list. -/
def jsonFind (fields : List (String × Json)) (k : String) : Option Json :=
  match fields with
  | [] => none
  | (k2, v) :: rest => if k2 == k then some v else jsonFind rest k

structure Response where
  status_code : Nat
  text : String
  body : Option Json

/-- The argument object a Python exception is constructed with.  The
distinction matters: `api.py` raises `AuthyTokenIssue(response.json)` with
the *bound method* `response.json`, not the decoded body and not the raw
text. -/
inductive ExcArg where
  | methodJson : Response → ExcArg
  | jsonValue : Json → ExcArg
  | text : String → ExcArg

/-- The exceptions an `api.py` call can raise. -/
inductive ApiError where
  | authyTokenIssue : ExcArg → ApiError
  | outdatedVersion : String → ApiError
  | assertionError : String → ApiError
  | jsonDecodeError : ApiError
  | keyError : String → ApiError
  | typeError : ApiError
  | unicodeEncodeError : ApiError

/-- `response.json()`: the decoded body, or `json.JSONDecodeError` when
the body is not valid JSON (e.g. an empty body). -/
def Response.json (r : Response) : Except ApiError Json :=
  match r.body with
  | some j => .ok j
  | none => .error .jsonDecodeError

/-- Python `payload[key]` on a decoded JSON value: `KeyError` when the key
is missing from a dict, `TypeError` when the value is not a dict. -/
def pyGetItem (j : Json) (k : String) : Except ApiError Json :=
  match j with
  | .obj fields =>
    match jsonFind fields k with
    | some v => .ok v
    | none => .error (.keyError k)
  | _ => .error .typeError

/-! ## The credential signer `TermiusAuth` -/

structure TermiusAuth where
  username : String
  apikey : String
deriving DecidableEq

/-- The class attribute `header_name`. -/
def TermiusAuth.header_name : String := "Authorization"

/-- The `auth_header` property: rendered from the current state on every
access, never cached. -/
def TermiusAuth.auth_header (a : TermiusAuth) : String :=
  "ApiKey " ++ a.username ++ ":" ++ a.apikey

/-- An outgoing HTTP request as the signer sees it: headers (a Python
dict, modelled as an association list with unique keys maintained by
`dictSet`), plus the fields the signer must not touch. -/
structure Request where
  url : String
  headers : List (String × String)
  reqBody : Option String
deriving DecidableEq

/-- Python dict assignment `d[k] = v` on an association list with unique
keys: replace the binding in place when the key exists, append otherwise. -/
def dictSet : List (String × String) → String → String → List (String × String)
  | [], k, v => [(k, v)]
  | p :: rest, k, v =>
      if p.1 = k then (k, v) :: rest else p :: dictSet rest k v

/-- `TermiusAuth.__call__`: set the `Authorization` header and return the
request. -/
def TermiusAuth.call (a : TermiusAuth) (r : Request) : Request :=
  { r with headers := dictSet r.headers TermiusAuth.header_name a.auth_header }

/-! ## The `API` client -/

structure API where
  auth : Option TermiusAuth

def API.host : String := "api.termius.com"

def API.base_url : String := "https://" ++ API.host ++ "/api/"

def API.timeout : Nat := 180

/-- `API.__init__(username=None, apikey=None)`: a signer is created only
when both arguments are truthy (present and non-empty). -/
def API.init (username apikey : Option String) : API :=
  match username, apikey with
  | some u, some k => if u ≠ "" ∧ k ≠ "" then ⟨some ⟨u, k⟩⟩ else ⟨none⟩
  | _, _ => ⟨none⟩

/-- `API.set_auth`: install a signer unconditionally. -/
def API.set_auth (api : API) (username apikey : String) : API :=
  { api with auth := some ⟨username, apikey⟩ }

def API.request_url (_ : API) (endpoint : String) : String :=
  API.base_url ++ endpoint

/-- How `requests` applies `auth=self.auth` to an outgoing request: the
auth object is called on the prepared request when present, and the
request is sent unauthenticated when it is `None`. -/
def API.prepare_request (api : API) (req : Request) : Request :=
  match api.auth with
  | some a => a.call req
  | none => req

/-- The message `OutdatedVersion` is raised with. -/
def outdatedVersionMessage : String :=
  "The current version of Termius CLI is " ++
  "incompatible with new Termius encryption algorithms."

/-- The default acceptable statuses of `API.__check_response`. -/
def defaultStatuses : List Nat := [200, 201, 202, 204]

/-- `API.__check_response(response, success_statuses)`: 490 first, then
the acceptable-status assertion whose `AssertionError` message is the raw
body text.  `success_statuses or (200, 201, 202, 204)` means a `None` or
empty tuple falls back to the default. -/
def API.check_response (r : Response) (success_statuses : Option (List Nat)) :
    Except ApiError Unit :=
  if r.status_code = 490 then
    .error (.outdatedVersion outdatedVersionMessage)
  else
    let ss := match success_statuses with
      | none => defaultStatuses
      | some [] => defaultStatuses
      | some l => l
    if r.status_code ∈ ss then .ok () else .error (.assertionError r.text)

/-- `API.__check_login_response`: 487 raises `AuthyTokenIssue` with the
bound method `response.json` as argument (the source does not call it),
then the generic check with acceptable set `(200,)`.  The warning log on
non-200 has no observable effect and is not modelled. -/
def API.check_login_response (r : Response) : Except ApiError Unit :=
  if r.status_code = 487 then .error (.authyTokenIssue (.methodJson r))
  else API.check_response r (some [200])

/-- The form payload `API.login` sends: `dict(password=hash, email=email)`
plus `authy_token` only when provided; `none` when `hash_password` raises
before any request is sent. -/
def API.login_payload (email password : String) (authy_token : Option String) :
    Option (List (String × String)) :=
  match hash_password password with
  | none => none
  | some hp =>
    some ([("password", hp), ("email", email)] ++
      (match authy_token with
       | some t => [("authy_token", t)]
       | none => []))

/-- `API.login`: hash the password, send the payload, classify the
response, decode it, extract `token`, install the signer, return the
decoded body.  Returns the client state after the call alongside the
result. -/
def API.login (api : API) (email password : String)
    (_authy_token : Option String) (response : Response) :
    API × Except ApiError Json :=
  match hash_password password with
  | none => (api, .error .unicodeEncodeError)
  | some _ =>
    match API.check_login_response response with
    | .error e => (api, .error e)
    | .ok _ =>
      match response.json with
      | .error e => (api, .error e)
      | .ok response_payload =>
        match pyGetItem response_payload "token" with
        | .error e => (api, .error e)
        | .ok tokenVal =>
          (api.set_auth email tokenVal.pyStr, .ok response_payload)

/-- `API.post`: acceptable set `(201,)`. -/
def API.post (api : API) (_endpoint : String) (_data : Json)
    (response : Response) : API × Except ApiError Json :=
  (api,
    match API.check_response response (some [201]) with
    | .error e => .error e
    | .ok _ => response.json)

/-- `API.get`: acceptable set `(200,)`. -/
def API.get (api : API) (_endpoint : String) (response : Response) :
    API × Except ApiError Json :=
  (api,
    match API.check_response response (some [200]) with
    | .error e => .error e
    | .ok _ => response.json)

/-- `API.delete`: acceptable set `(200, 204)`; the body is decoded
unconditionally afterwards. -/
def API.delete (api : API) (_endpoint : String) (response : Response) :
    API × Except ApiError Json :=
  (api,
    match API.check_response response (some [200, 204]) with
    | .error e => .error e
    | .ok _ => response.json)

/-- `API.put`: acceptable set `(200, 202)`. -/
def API.put (api : API) (_endpoint : String) (_data : Json)
    (response : Response) : API × Except ApiError Json :=
  (api,
    match API.check_response response (some [200, 202]) with
    | .error e => .error e
    | .ok _ => response.json)

/-- Python dict lookup on the header association list: first binding of
the key. -/
def headerGet : List (String × String) → String → Option String
  | [], _ => none
  | (k2, v) :: rest, k => if k2 = k then some v else headerGet rest k

/-- Number of bindings of a key in the header association list. -/
def countKey (hs : List (String × String)) (k : String) : Nat :=
  (hs.filter (fun p => decide (p.1 = k))).length

/-! ## Lemmas about `dictSet` -/

theorem dictSet_headerGet_self (hs : List (String × String)) (k v : String) :
    headerGet (dictSet hs k v) k = some v := by
  induction hs with
  | nil => simp [dictSet, headerGet]
  | cons p rest ih =>
    by_cases hp : p.1 = k
    · simp [dictSet, headerGet, hp]
    · simp [dictSet, headerGet, hp, ih]

theorem dictSet_headerGet_ne (hs : List (String × String)) (k v k2 : String)
    (hne : k2 ≠ k) :
    headerGet (dictSet hs k v) k2 = headerGet hs k2 := by
  induction hs with
  | nil => simp [dictSet, headerGet, Ne.symm hne]
  | cons p rest ih =>
    by_cases hp : p.1 = k
    · have hp2 : p.1 ≠ k2 := by rw [hp]; exact Ne.symm hne
      simp [dictSet, headerGet, hp, hp2, Ne.symm hne]
    · by_cases hq : p.1 = k2
      · simp [dictSet, headerGet, hp, hq, hne]
      · simp [dictSet, headerGet, hp, hq, ih]

theorem countKey_eq_zero (hs : List (String × String)) (k : String)
    (h : k ∉ hs.map Prod.fst) : countKey hs k = 0 := by
  unfold countKey
  simp only [List.length_eq_zero, List.filter_eq_nil_iff, decide_eq_true_eq]
  intro q hq hqk
  exact h (hqk ▸ List.mem_map_of_mem Prod.fst hq)

theorem dictSet_countKey (hs : List (String × String)) (k v : String)
    (hnodup : (hs.map Prod.fst).Nodup) :
    countKey (dictSet hs k v) k = 1 := by
  induction hs with
  | nil => simp [dictSet, countKey]
  | cons p rest ih =>
    simp only [List.map_cons, List.nodup_cons] at hnodup
    by_cases hp : p.1 = k
    · have hrest : countKey rest k = 0 :=
        countKey_eq_zero rest k (hp ▸ hnodup.1)
      unfold countKey at hrest ⊢
      simp [dictSet, hp, List.filter_cons, hrest]
    · have := ih hnodup.2
      unfold countKey at this ⊢
      simp [dictSet, hp, List.filter_cons, this]

/-! ## Lemmas about response classification -/

theorem check_response_490 (r : Response) (ss : Option (List Nat))
    (h : r.status_code = 490) :
    API.check_response r ss = .error (.outdatedVersion outdatedVersionMessage) := by
  simp [API.check_response, h]

theorem check_response_ok (r : Response) (a : Nat) (l : List Nat)
    (h490 : r.status_code ≠ 490) (hin : r.status_code ∈ a :: l) :
    API.check_response r (some (a :: l)) = .ok () := by
  simp only [API.check_response, h490, if_false]
  simp [hin]

theorem check_response_fail (r : Response) (a : Nat) (l : List Nat)
    (h490 : r.status_code ≠ 490) (hnotin : r.status_code ∉ a :: l) :
    API.check_response r (some (a :: l)) = .error (.assertionError r.text) := by
  simp only [API.check_response, h490, if_false]
  simp [hnotin]

/-- The common shape of the four CRUD operations: generic classification
followed by an unconditional `response.json()`. -/
theorem classify_shape (r : Response) (a : Nat) (l : List Nat) (j : Json)
    (h490 : r.status_code ≠ 490) (hbody : r.body = some j) :
    ((match API.check_response r (some (a :: l)) with
      | .error e => (.error e : Except ApiError Json)
      | .ok _ => r.json) = .ok j ↔ r.status_code ∈ a :: l) ∧
    (r.status_code ∉ a :: l →
      (match API.check_response r (some (a :: l)) with
       | .error e => (.error e : Except ApiError Json)
       | .ok _ => r.json) = .error (.assertionError r.text)) := by
  by_cases hin : r.status_code ∈ a :: l
  · simp [check_response_ok r a l h490 hin, Response.json, hbody, hin]
  · simp [check_response_fail r a l h490 hin, hin]

set_option maxRecDepth 1000000 in
/-- SHA-256 of the empty latin-1 byte string, fixed once so later proofs
never re-evaluate the compression function. -/
theorem hash_password_empty :
    hash_password "" =
      some "e3b0c44298fc1c149afbf4c8996fb92427ae41e4649b934ca495991b7852b855" := by
  decide

/-! ## The claims -/

/-- C1: for every operation and every HTTP response whose status is not 490
(and, for login, not 487), the call returns the decoded body if and only if
the status is in that operation's acceptable set (login 200; post 201;
get 200; delete 200/204; put 200/202) and otherwise raises
UnexpectedStatus (the acceptable-status `AssertionError`).  In particular
post on status 200 raises rather than succeeds.  The decoded-body
direction presupposes a decodable body, and for login a `token` field and
an encodable password, since those are consumed on the success path. -/
theorem c1_acceptable_status_classification
    (api : API) (endpoint : String) (data : Json) (email password : String)
    (authy : Option String) (r : Response) (j : Json) (tok : Json)
    (h490 : r.status_code ≠ 490)
    (hbody : r.body = some j)
    (hpw : (hash_password password).isSome = true)
    (htok : pyGetItem j "token" = .ok tok) :
    ((API.post api endpoint data r).2 = .ok j ↔ r.status_code ∈ [201]) ∧
    (r.status_code ∉ [201] →
      (API.post api endpoint data r).2 = .error (.assertionError r.text)) ∧
    ((API.get api endpoint r).2 = .ok j ↔ r.status_code ∈ [200]) ∧
    (r.status_code ∉ [200] →
      (API.get api endpoint r).2 = .error (.assertionError r.text)) ∧
    ((API.delete api endpoint r).2 = .ok j ↔ r.status_code ∈ [200, 204]) ∧
    (r.status_code ∉ [200, 204] →
      (API.delete api endpoint r).2 = .error (.assertionError r.text)) ∧
    ((API.put api endpoint data r).2 = .ok j ↔ r.status_code ∈ [200, 202]) ∧
    (r.status_code ∉ [200, 202] →
      (API.put api endpoint data r).2 = .error (.assertionError r.text)) ∧
    (r.status_code ≠ 487 →
      (((API.login api email password authy r).2 = .ok j ↔
          r.status_code ∈ [200]) ∧
       (r.status_code ∉ [200] →
         (API.login api email password authy r).2 =
           .error (.assertionError r.text)))) := by
  obtain ⟨hp, hhp⟩ := Option.isSome_iff_exists.mp hpw
  refine ⟨?_, ?_, ?_, ?_, ?_, ?_, ?_, ?_, ?_⟩
  · simpa [API.post] using (classify_shape r 201 [] j h490 hbody).1
  · simpa [API.post] using (classify_shape r 201 [] j h490 hbody).2
  · simpa [API.get] using (classify_shape r 200 [] j h490 hbody).1
  · simpa [API.get] using (classify_shape r 200 [] j h490 hbody).2
  · simpa [API.delete] using (classify_shape r 200 [204] j h490 hbody).1
  · simpa [API.delete] using (classify_shape r 200 [204] j h490 hbody).2
  · simpa [API.put] using (classify_shape r 200 [202] j h490 hbody).1
  · simpa [API.put] using (classify_shape r 200 [202] j h490 hbody).2
  · intro h487
    by_cases hin : r.status_code ∈ [200]
    · have hok : API.check_login_response r = .ok () := by
        simp [API.check_login_response, h487, check_response_ok r 200 [] h490 hin]
      have h200 : r.status_code = 200 := by simpa using hin
      constructor
      · simp [API.login, hhp, hok, Response.json, hbody, htok, h200]
      · intro hcontra
        exact absurd hin hcontra
    · have herr : API.check_login_response r =
          .error (.assertionError r.text) := by
        simp [API.check_login_response, h487,
          check_response_fail r 200 [] h490 hin]
      have h200 : ¬ r.status_code = 200 := by simpa using hin
      constructor
      · simp [API.login, hhp, herr, h200]
      · intro _
        simp [API.login, hhp, herr]

/-- C1 witness: the claim's highlighted instance — `post` receiving
status 200 raises the acceptable-status assertion carrying the body
text. -/
theorem c1_witness :
    (API.post ⟨none⟩ "terminal/" Json.null
        ⟨200, "ok-body", some (Json.obj [("token", Json.str "t0")])⟩).2 =
      .error (.assertionError "ok-body") :=
  (c1_acceptable_status_classification ⟨none⟩ "terminal/" Json.null
    "a@b.com" "" none
    ⟨200, "ok-body", some (Json.obj [("token", Json.str "t0")])⟩
    (Json.obj [("token", Json.str "t0")]) (Json.str "t0")
    (by decide) rfl (by rw [hash_password_empty]; rfl) rfl).2.1 (by decide)

/-- C2: every operation raises IncompatibleVersion (`OutdatedVersion`) on
a status-490 response, whatever acceptable-status set is in play; the
first conjunct quantifies over an arbitrary acceptable set — even one
containing 490 — showing the 490 check precedes the acceptable-set
check. -/
theorem c2_status_490_incompatible_version
    (api : API) (endpoint : String) (data : Json) (email password : String)
    (authy : Option String) (ss : Option (List Nat)) (r : Response)
    (h : r.status_code = 490)
    (hpw : (hash_password password).isSome = true) :
    API.check_response r ss =
      .error (.outdatedVersion outdatedVersionMessage) ∧
    (API.post api endpoint data r).2 =
      .error (.outdatedVersion outdatedVersionMessage) ∧
    (API.get api endpoint r).2 =
      .error (.outdatedVersion outdatedVersionMessage) ∧
    (API.delete api endpoint r).2 =
      .error (.outdatedVersion outdatedVersionMessage) ∧
    (API.put api endpoint data r).2 =
      .error (.outdatedVersion outdatedVersionMessage) ∧
    (API.login api email password authy r).2 =
      .error (.outdatedVersion outdatedVersionMessage) := by
  obtain ⟨hp, hhp⟩ := Option.isSome_iff_exists.mp hpw
  have h487 : r.status_code ≠ 487 := by rw [h]; decide
  refine ⟨check_response_490 r ss h, ?_, ?_, ?_, ?_, ?_⟩
  · simp [API.post, check_response_490 r (some [201]) h]
  · simp [API.get, check_response_490 r (some [200]) h]
  · simp [API.delete, check_response_490 r (some [200, 204]) h]
  · simp [API.put, check_response_490 r (some [200, 202]) h]
  · simp [API.login, hhp, API.check_login_response, h487,
      check_response_490 r (some [200]) h]

/-- C2 witness: a status-490 response through every operation, with the
acceptable set even containing 490 for the bare classifier. -/
theorem c2_witness :
    API.check_response ⟨490, "b", none⟩ (some [490]) =
      .error (.outdatedVersion outdatedVersionMessage) ∧
    (API.post ⟨none⟩ "hosts/" Json.null ⟨490, "b", none⟩).2 =
      .error (.outdatedVersion outdatedVersionMessage) ∧
    (API.get ⟨none⟩ "hosts/" ⟨490, "b", none⟩).2 =
      .error (.outdatedVersion outdatedVersionMessage) ∧
    (API.delete ⟨none⟩ "hosts/" ⟨490, "b", none⟩).2 =
      .error (.outdatedVersion outdatedVersionMessage) ∧
    (API.put ⟨none⟩ "hosts/" Json.null ⟨490, "b", none⟩).2 =
      .error (.outdatedVersion outdatedVersionMessage) ∧
    (API.login ⟨none⟩ "a@b.com" "" none ⟨490, "b", none⟩).2 =
      .error (.outdatedVersion outdatedVersionMessage) :=
  c2_status_490_incompatible_version ⟨none⟩ "hosts/" Json.null "a@b.com" ""
    none (some [490]) ⟨490, "b", none⟩ rfl (by rw [hash_password_empty]; rfl)

/-- C3 counterexample: at a concrete 487 login response, the value the
raised `AuthyTokenIssue` carries is the bound method `response.json`
(passed uncalled by the source), not the raw response body text
`"raw-body"` — the claim's "carrying the raw response body" is false. -/
theorem c3_counterexample :
    (API.login ⟨none⟩ "a@b.com" "" none
        ⟨487, "raw-body",
          some (Json.obj [("detail", Json.str "need token")])⟩).2 ≠
      .error (.authyTokenIssue (.text "raw-body")) := by
  have heval : (API.login ⟨none⟩ "a@b.com" "" none
      ⟨487, "raw-body",
        some (Json.obj [("detail", Json.str "need token")])⟩).2 =
      .error (.authyTokenIssue (.methodJson
        ⟨487, "raw-body",
          some (Json.obj [("detail", Json.str "need token")])⟩)) := by
    simp [API.login, hash_password_empty, API.check_login_response]
  rw [heval]
  intro hcontra
  injection hcontra with h1
  injection h1 with h2
  exact ExcArg.noConfusion h2

/-- C3 (amended): for every login call whose response has status 487, the
call raises `AuthyTokenIssue` carrying the bound `response.json` method
(the source passes the method itself, not the raw body), and the client's
signer is left unchanged. -/
theorem c3_amended_authy_487
    (api : API) (email password : String) (authy : Option String)
    (r : Response) (h : r.status_code = 487)
    (hpw : (hash_password password).isSome = true) :
    (API.login api email password authy r).2 =
      .error (.authyTokenIssue (.methodJson r)) ∧
    (API.login api email password authy r).1 = api := by
  obtain ⟨hp, hhp⟩ := Option.isSome_iff_exists.mp hpw
  have hchk : API.check_login_response r =
      .error (.authyTokenIssue (.methodJson r)) := by
    simp [API.check_login_response, h]
  constructor <;> simp [API.login, hhp, hchk]

/-- C3 witness: a 487 response against a client holding an old signer;
the signer survives the failed call untouched. -/
theorem c3_witness :
    (API.login ⟨some ⟨"old", "key"⟩⟩ "a@b.com" "" none
        ⟨487, "raw-body", none⟩).2 =
      .error (.authyTokenIssue (.methodJson ⟨487, "raw-body", none⟩)) ∧
    (API.login ⟨some ⟨"old", "key"⟩⟩ "a@b.com" "" none
        ⟨487, "raw-body", none⟩).1 = ⟨some ⟨"old", "key"⟩⟩ :=
  c3_amended_authy_487 ⟨some ⟨"old", "key"⟩⟩ "a@b.com" "" none
    ⟨487, "raw-body", none⟩ rfl (by rw [hash_password_empty]; rfl)

/-- C4: a successful login sends `password = digest(password)` and
`email`, with `authy_token` present exactly when a second factor is
given; it extracts `token`, installs the signer `(email, token)` — so
every subsequently prepared request carries
`Authorization: ApiKey email:token` — and returns the decoded body. -/
theorem c4_login_success
    (api : API) (email password : String) (second : Option String)
    (r : Response) (j : Json) (tok hp : String)
    (h200 : r.status_code = 200) (hbody : r.body = some j)
    (hpw : hash_password password = some hp)
    (htok : pyGetItem j "token" = .ok (Json.str tok)) :
    API.login_payload email password none =
      some [("password", hp), ("email", email)] ∧
    (∀ t, API.login_payload email password (some t) =
      some [("password", hp), ("email", email), ("authy_token", t)]) ∧
    (API.login api email password second r).2 = .ok j ∧
    (API.login api email password second r).1.auth = some ⟨email, tok⟩ ∧
    (∀ req : Request,
      headerGet
        (((API.login api email password second r).1.prepare_request
          req).headers) "Authorization" =
        some ("ApiKey " ++ email ++ ":" ++ tok)) := by
  have h490 : r.status_code ≠ 490 := by rw [h200]; decide
  have h487 : r.status_code ≠ 487 := by rw [h200]; decide
  have hok : API.check_login_response r = .ok () := by
    simp [API.check_login_response, h487,
      check_response_ok r 200 [] h490 (by simp [h200])]
  have hauth : (API.login api email password second r).1.auth =
      some ⟨email, tok⟩ := by
    simp [API.login, hpw, hok, Response.json, hbody, htok, API.set_auth,
      Json.pyStr]
  refine ⟨?_, ?_, ?_, hauth, ?_⟩
  · simp [API.login_payload, hpw]
  · intro t
    simp [API.login_payload, hpw]
  · simp [API.login, hpw, hok, Response.json, hbody, htok]
  · intro req
    have hprep : (API.login api email password second r).1.prepare_request
        req = TermiusAuth.call ⟨email, tok⟩ req := by
      simp [API.prepare_request, hauth]
    rw [hprep, TermiusAuth.call]
    simpa [TermiusAuth.auth_header, TermiusAuth.header_name] using
      dictSet_headerGet_self req.headers "Authorization"
        ("ApiKey " ++ email ++ ":" ++ tok)

/-- C4 witness: the spec's own example — status 200, body containing
token `abc123`, email `a@b.com`; the next request carries
`Authorization: ApiKey a@b.com:abc123`. -/
theorem c4_witness :
    API.login_payload "a@b.com" "" none =
      some [("password",
        "e3b0c44298fc1c149afbf4c8996fb92427ae41e4649b934ca495991b7852b855"),
        ("email", "a@b.com")] ∧
    (API.login ⟨none⟩ "a@b.com" "" none
        ⟨200, "", some (Json.obj [("token", Json.str "abc123")])⟩).2 =
      .ok (Json.obj [("token", Json.str "abc123")]) ∧
    (API.login ⟨none⟩ "a@b.com" "" none
        ⟨200, "", some (Json.obj [("token", Json.str "abc123")])⟩).1.auth =
      some ⟨"a@b.com", "abc123"⟩ ∧
    headerGet
      (((API.login ⟨none⟩ "a@b.com" "" none
          ⟨200, "", some (Json.obj [("token", Json.str "abc123")])⟩).1.prepare_request
        ⟨"https://api.termius.com/api/hosts/", [], none⟩).headers)
      "Authorization" = some "ApiKey a@b.com:abc123" := by
  have H := c4_login_success ⟨none⟩ "a@b.com" "" none
    ⟨200, "", some (Json.obj [("token", Json.str "abc123")])⟩
    (Json.obj [("token", Json.str "abc123")]) "abc123"
    "e3b0c44298fc1c149afbf4c8996fb92427ae41e4649b934ca495991b7852b855"
    rfl rfl hash_password_empty rfl
  exact ⟨H.1, H.2.2.1, H.2.2.2.1,
    H.2.2.2.2 ⟨"https://api.termius.com/api/hosts/", [], none⟩⟩

/-- C5 (code bug in the source): `delete` on a status-204 response with an
empty (undecodable) body passes the acceptable-status check but then
calls `response.json()` unconditionally, which raises
`json.JSONDecodeError` — the call crashes instead of returning an
empty/absent payload as the claim requires. -/
theorem c5_delete_204_empty_body_raises
    (api : API) (endpoint : String) :
    (API.delete api endpoint ⟨204, "", none⟩).2 = .error .jsonDecodeError := by
  simp [API.delete,
    check_response_ok ⟨204, "", none⟩ 200 [204] (by decide) (by decide),
    Response.json]

/-- C6: applying the signer to a request inserts exactly one
`Authorization` binding whose value is rendered from the signer's current
state as `ApiKey identifier:secret_key`, and leaves the url, the body and
every other header binding unchanged.  The statement is universally
quantified over the request, so one signer serves arbitrarily many
requests, and the header value is a function of the signer's current
fields — recomputed, never cached. -/
theorem c6_signer_inserts_exactly_one_header
    (a : TermiusAuth) (req : Request)
    (hnodup : (req.headers.map Prod.fst).Nodup) :
    headerGet (a.call req).headers "Authorization" =
      some ("ApiKey " ++ a.username ++ ":" ++ a.apikey) ∧
    countKey (a.call req).headers "Authorization" = 1 ∧
    (a.call req).url = req.url ∧
    (a.call req).reqBody = req.reqBody ∧
    (∀ k, k ≠ "Authorization" →
      headerGet (a.call req).headers k = headerGet req.headers k) := by
  refine ⟨?_, ?_, rfl, rfl, ?_⟩
  · simpa [TermiusAuth.call, TermiusAuth.header_name,
      TermiusAuth.auth_header] using
      dictSet_headerGet_self req.headers "Authorization" a.auth_header
  · simpa [TermiusAuth.call, TermiusAuth.header_name] using
      dictSet_countKey req.headers "Authorization" a.auth_header hnodup
  · intro k hk
    simpa [TermiusAuth.call, TermiusAuth.header_name] using
      dictSet_headerGet_ne req.headers "Authorization" a.auth_header k hk

/-- C6 witness: a concrete signer applied to a request that already has
one unrelated header. -/
theorem c6_witness :
    headerGet (TermiusAuth.call ⟨"a@b.com", "abc123"⟩
        ⟨"u", [("X-Test", "1")], none⟩).headers "Authorization" =
      some "ApiKey a@b.com:abc123" ∧
    countKey (TermiusAuth.call ⟨"a@b.com", "abc123"⟩
        ⟨"u", [("X-Test", "1")], none⟩).headers "Authorization" = 1 ∧
    (TermiusAuth.call ⟨"a@b.com", "abc123"⟩
        ⟨"u", [("X-Test", "1")], none⟩).url = "u" ∧
    (TermiusAuth.call ⟨"a@b.com", "abc123"⟩
        ⟨"u", [("X-Test", "1")], none⟩).reqBody = none ∧
    headerGet (TermiusAuth.call ⟨"a@b.com", "abc123"⟩
        ⟨"u", [("X-Test", "1")], none⟩).headers "X-Test" = some "1" := by
  have H := c6_signer_inserts_exactly_one_header ⟨"a@b.com", "abc123"⟩
    ⟨"u", [("X-Test", "1")], none⟩ (by decide)
  exact ⟨H.1, H.2.1, H.2.2.1, H.2.2.2.1, H.2.2.2.2 "X-Test" (by decide)⟩

/-- C7 counterexample: two `get` calls whose responses differ only in
status (418 vs 419) raise *identical* failures, so the raised failure
cannot carry the response's status code — the claim that UnexpectedStatus
carries both status and body is false (only the raw body text, the
assertion message, is carried). -/
theorem c7_counterexample :
    (API.get ⟨none⟩ "e" ⟨418, "body", none⟩).2 =
      (API.get ⟨none⟩ "e" ⟨419, "body", none⟩).2 ∧
    (API.get ⟨none⟩ "e" ⟨418, "body", none⟩).2 =
      .error (.assertionError "body") := by
  constructor <;> simp [API.get, API.check_response]

/-- C7 (amended): a failure classified as UnexpectedStatus carries the
response's raw body text as the assertion message; the status code is not
part of the failure value. -/
theorem c7_amended_assertion_carries_body_text
    (api : API) (endpoint : String) (data : Json) (email password : String)
    (authy : Option String) (r : Response)
    (h490 : r.status_code ≠ 490) :
    (r.status_code ∉ [201] →
      (API.post api endpoint data r).2 = .error (.assertionError r.text)) ∧
    (r.status_code ∉ [200] →
      (API.get api endpoint r).2 = .error (.assertionError r.text)) ∧
    (r.status_code ∉ [200, 204] →
      (API.delete api endpoint r).2 = .error (.assertionError r.text)) ∧
    (r.status_code ∉ [200, 202] →
      (API.put api endpoint data r).2 = .error (.assertionError r.text)) ∧
    (r.status_code ≠ 487 → r.status_code ∉ [200] →
      (hash_password password).isSome = true →
      (API.login api email password authy r).2 =
        .error (.assertionError r.text)) := by
  refine ⟨?_, ?_, ?_, ?_, ?_⟩
  · intro hnotin
    simp [API.post, check_response_fail r 201 [] h490 hnotin]
  · intro hnotin
    simp [API.get, check_response_fail r 200 [] h490 hnotin]
  · intro hnotin
    simp [API.delete, check_response_fail r 200 [204] h490 hnotin]
  · intro hnotin
    simp [API.put, check_response_fail r 200 [202] h490 hnotin]
  · intro h487 hnotin hpw
    obtain ⟨hp, hhp⟩ := Option.isSome_iff_exists.mp hpw
    have herr : API.check_login_response r =
        .error (.assertionError r.text) := by
      simp [API.check_login_response, h487,
        check_response_fail r 200 [] h490 hnotin]
    simp [API.login, hhp, herr]

/-- C7 witness: a teapot response through every operation. -/
theorem c7_witness :
    (API.post ⟨none⟩ "e" Json.null ⟨418, "teapot", none⟩).2 =
      .error (.assertionError "teapot") ∧
    (API.get ⟨none⟩ "e" ⟨418, "teapot", none⟩).2 =
      .error (.assertionError "teapot") ∧
    (API.delete ⟨none⟩ "e" ⟨418, "teapot", none⟩).2 =
      .error (.assertionError "teapot") ∧
    (API.put ⟨none⟩ "e" Json.null ⟨418, "teapot", none⟩).2 =
      .error (.assertionError "teapot") ∧
    (API.login ⟨none⟩ "a@b.com" "" none ⟨418, "teapot", none⟩).2 =
      .error (.assertionError "teapot") := by
  have H := c7_amended_assertion_carries_body_text ⟨none⟩ "e" Json.null
    "a@b.com" "" none ⟨418, "teapot", none⟩ (by decide)
  exact ⟨H.1 (by decide), H.2.1 (by decide), H.2.2.1 (by decide),
    H.2.2.2.1 (by decide),
    H.2.2.2.2 (by decide) (by decide) (by rw [hash_password_empty]; rfl)⟩

/-- A lowercase hexadecimal character, the alphabet of `hexdigest`. -/
def isHexChar (c : Char) : Bool := "0123456789abcdef".toList.contains c

/-- Every hex digit below 16 renders as a hexadecimal character. -/
theorem hexDigitChar_isHexChar : ∀ n < 16, isHexChar (hexDigitChar n) = true := by
  decide

theorem wordHexChars_all_hex (x : Nat) :
    (wordHexChars x).all isHexChar = true := by
  have h : ∀ n : Nat, isHexChar (hexDigitChar (n % 16)) = true := fun n =>
    hexDigitChar_isHexChar (n % 16) (Nat.mod_lt n (by decide))
  simp [wordHexChars, h]

theorem hexdigest_length (st : Hash8) : (hexdigest st).length = 64 := rfl

theorem hexdigest_all_hex (st : Hash8) :
    (hexdigest st).toList.all isHexChar = true := by
  have heq : (hexdigest st).toList =
      wordHexChars st.a ++ wordHexChars st.b ++ wordHexChars st.c ++
      wordHexChars st.d ++ wordHexChars st.e ++ wordHexChars st.f ++
      wordHexChars st.g ++ wordHexChars st.h := rfl
  rw [heq]
  simp [List.all_append, wordHexChars_all_hex]

/-- C8 counterexample: `six.b` encodes in latin-1, so a password with a
character above U+00FF — here "π" — makes `hash_password` raise
`UnicodeEncodeError` instead of producing a digest: the claim fails for
*every* password string. -/
theorem c8_counterexample : hash_password "π" = none := by decide

/-- C8 (amended): for every password all of whose characters lie below
U+0100 (others make `six.b` raise `UnicodeEncodeError` before hashing),
the digest is deterministic, is a 64-character string of hexadecimal
digits equal to the SHA-256 hex digest of the password's latin-1 bytes,
and digest of the empty password is the known SHA-256 of the empty
string. -/
theorem c8_digest_sha256_hex (p q : String)
    (hp : ∀ c ∈ p.toList, c.toNat < 256) :
    (p = q → hash_password p = hash_password q) ∧
    (∃ d, hash_password p = some d ∧
      d = hexdigest (sha256Bytes (p.toList.map Char.toNat)) ∧
      d.length = 64 ∧
      d.toList.all isHexChar = true) ∧
    hash_password "" =
      some "e3b0c44298fc1c149afbf4c8996fb92427ae41e4649b934ca495991b7852b855" := by
  have hall : p.toList.all (fun c => decide (c.toNat < 256)) = true := by
    rw [List.all_eq_true]
    intro c hc
    exact decide_eq_true (hp c hc)
  have hsix : six_b p = some (p.toList.map Char.toNat) := by
    unfold six_b
    rw [if_pos hall]
  refine ⟨fun h => by rw [h],
    ⟨hexdigest (sha256Bytes (p.toList.map Char.toNat)), ?_, rfl,
      hexdigest_length _, hexdigest_all_hex _⟩,
    hash_password_empty⟩
  simp [hash_password, hsix]

/-- C8 witness: the digest of "abc". -/
theorem c8_witness :
    (("abc" : String) = "abc" →
      hash_password "abc" = hash_password "abc") ∧
    (∃ d, hash_password "abc" = some d ∧
      d = hexdigest (sha256Bytes ("abc".toList.map Char.toNat)) ∧
      d.length = 64 ∧
      d.toList.all isHexChar = true) ∧
    hash_password "" =
      some "e3b0c44298fc1c149afbf4c8996fb92427ae41e4649b934ca495991b7852b855" :=
  c8_digest_sha256_hex "abc" "abc" (by decide)

/-- C9: the four CRUD operations never touch the signer: whatever the
response status, body, or resulting failure, the client state after
`get`, `post`, `put` or `delete` equals the state before the call; in
the source only `login` and `set_auth` assign `self.auth`. -/
theorem c9_crud_operations_preserve_signer
    (api : API) (endpoint : String) (data : Json) (r : Response) :
    (API.get api endpoint r).1 = api ∧
    (API.post api endpoint data r).1 = api ∧
    (API.put api endpoint data r).1 = api ∧
    (API.delete api endpoint r).1 = api :=
  ⟨rfl, rfl, rfl, rfl⟩

/-- C10: the constructor installs a signer only when both credentials are
present and non-empty (Python truthiness of `username and apikey`); a
missing or empty credential yields an unauthenticated client.  `set_auth`
installs a signer unconditionally, empty strings included. -/
theorem c10_constructor_truthiness (u k : String) (hu : u ≠ "") (hk : k ≠ "") :
    (API.init none none).auth = none ∧
    (API.init (some u) none).auth = none ∧
    (API.init none (some k)).auth = none ∧
    (API.init (some "") (some k)).auth = none ∧
    (API.init (some u) (some "")).auth = none ∧
    (API.init (some u) (some k)).auth = some ⟨u, k⟩ ∧
    (∀ (api : API) (u2 k2 : String),
      (api.set_auth u2 k2).auth = some ⟨u2, k2⟩) := by
  refine ⟨rfl, rfl, rfl, by simp [API.init], by simp [API.init], ?_,
    fun api u2 k2 => rfl⟩
  simp [API.init, hu, hk]

/-- C10 witness: concrete credentials, plus `set_auth` with empty
strings still installing a signer. -/
theorem c10_witness :
    (API.init none none).auth = none ∧
    (API.init (some "a@b.com") none).auth = none ∧
    (API.init none (some "tok")).auth = none ∧
    (API.init (some "") (some "tok")).auth = none ∧
    (API.init (some "a@b.com") (some "")).auth = none ∧
    (API.init (some "a@b.com") (some "tok")).auth =
      some ⟨"a@b.com", "tok"⟩ ∧
    ((⟨none⟩ : API).set_auth "" "").auth = some ⟨"", ""⟩ := by
  have H := c10_constructor_truthiness "a@b.com" "tok" (by decide) (by decide)
  exact ⟨H.1, H.2.1, H.2.2.1, H.2.2.2.1, H.2.2.2.2.1, H.2.2.2.2.2.1,
    H.2.2.2.2.2.2 ⟨none⟩ "" ""⟩
